import Mathlib

/-!
# Verification of the Commercial Electric Load Calculator

Shallow embedding of the calculation logic of `src/src/App.js`
(Gmoyal/LoadCalculator) and proofs about it.

Modelling conventions:
* JavaScript numbers are modelled by `ℚ`; the decimal literals of the source
  (`30.44`, `365.25`, `0.85`, `4.5`, ...) become the exact rationals they denote.
* A JavaScript numeric value that may be `NaN` (the result of `Number(...)`,
  `parseInt(...)` or `parseFloat(...)` on a blank or non-numeric string) is
  modelled as `Option ℚ`, with `none` standing for `NaN` (more generally, for a
  non-finite value).  `x || 0` on such a value is `Option.getD · 0`; a
  comparison `x > 0` is `false` on `none`, as in JavaScript.
* `Math.round` is `jsRound`, i.e. `⌊x + 1/2⌋`, which is the rounding used by
  JavaScript (half-up, towards `+∞`).
* Strings (zip codes) are modelled as `List Char`.
-/

/-- `v || 0` on a possibly-`NaN` JavaScript number: `NaN` (and the empty
string coerced by `Number`) becomes `0`, every actual number is kept.
This is the coercion `Number(facilityInfo.opDaysWeek) || 0` of App.js:546. -/
def jsNumberOr0 (v : Option ℚ) : ℚ :=
  v.getD 0

/-- JavaScript `Math.round` on a finite value: round half up. -/
def jsRound (x : ℚ) : ℤ :=
  ⌊x + 1 / 2⌋

/-- Multiplication of possibly-`NaN` JavaScript numbers: `NaN` propagates. -/
def jsMul (a b : Option ℚ) : Option ℚ :=
  match a, b with
  | some x, some y => some (x * y)
  | _, _ => none

/-- Division of possibly-`NaN` JavaScript numbers: `NaN` propagates and a zero
divisor yields a non-finite value (`Infinity`/`NaN`), also modelled `none`. -/
def jsDiv (a b : Option ℚ) : Option ℚ :=
  match a, b with
  | some x, some y => if y = 0 then none else some (x / y)
  | _, _ => none

/-- The JavaScript comparison `v > 0` on a possibly-`NaN` number:
`NaN > 0` is `false`. -/
def jsGtZero (v : Option ℚ) : Bool :=
  match v with
  | some x => decide (0 < x)
  | none => false

/-! ## The sizing engine (`calculateTotals`, App.js:545-576)

The engine reads `facilityInfo.opDaysWeek` (a form field, hence possibly blank
or non-numeric: `Option ℚ`), the list of equipment items — of which it uses
only the `totalDailyKWh` field, so the list is passed as `List ℚ` — and
`peakSunHours`.  Each `let` of the source becomes one definition. -/

/-- `daysPerMonth = (daysPerWeek / 7) * 30.44` (App.js:547). -/
def daysPerMonthOf (daysPerWeek : ℚ) : ℚ :=
  daysPerWeek / 7 * (3044 / 100)

/-- `daysPerYear = (daysPerWeek / 7) * 365.25` (App.js:548). -/
def daysPerYearOf (daysPerWeek : ℚ) : ℚ :=
  daysPerWeek / 7 * (36525 / 100)

/-- `totalDailyLoad = equipmentList.reduce((sum, item) => sum + item.totalDailyKWh, 0)`
(App.js:550-553). -/
def totalDailyLoad (equipmentList : List ℚ) : ℚ :=
  equipmentList.foldl (· + ·) 0

/-- `totalMonthlyLoad = totalDailyLoad * daysPerMonth` (App.js:554). -/
def totalMonthlyLoad (daysPerWeek : ℚ) (equipmentList : List ℚ) : ℚ :=
  totalDailyLoad equipmentList * daysPerMonthOf daysPerWeek

/-- `totalAnnualLoad = totalDailyLoad * daysPerYear` (App.js:555). -/
def totalAnnualLoad (daysPerWeek : ℚ) (equipmentList : List ℚ) : ℚ :=
  totalDailyLoad equipmentList * daysPerYearOf daysPerWeek

/-- `systemEfficiency = 0.85` (App.js:557). -/
def systemEfficiency : ℚ := 85 / 100

/-- `dailyEnergyNeeded = totalAnnualLoad > 0 ? totalAnnualLoad / 365.25 : 0`
(App.js:558-559). -/
def dailyEnergyNeeded (daysPerWeek : ℚ) (equipmentList : List ℚ) : ℚ :=
  if 0 < totalAnnualLoad daysPerWeek equipmentList then
    totalAnnualLoad daysPerWeek equipmentList / (36525 / 100)
  else 0

/-- `solarPVSize = dailyEnergyNeeded > 0 && peakSunHours > 0 ?
dailyEnergyNeeded / (peakSunHours * systemEfficiency) : 0` (App.js:560-563). -/
def solarPVSize (daysPerWeek : ℚ) (equipmentList : List ℚ) (peakSunHours : ℚ) : ℚ :=
  if 0 < dailyEnergyNeeded daysPerWeek equipmentList ∧ 0 < peakSunHours then
    dailyEnergyNeeded daysPerWeek equipmentList / (peakSunHours * systemEfficiency)
  else 0

/-- `rawBatterySize = solarPVSize * 2; batteryStorageSize = Math.round(rawBatterySize / 5) * 5`
(App.js:565-566). -/
def batteryStorageSize (daysPerWeek : ℚ) (equipmentList : List ℚ) (peakSunHours : ℚ) : ℚ :=
  (jsRound (solarPVSize daysPerWeek equipmentList peakSunHours * 2 / 5) : ℚ) * 5

/-- The record returned by `calculateTotals` (the `irradianceInfo` passthrough
string is omitted: it is not a computed field). -/
structure CalculationResult where
  daily : ℚ
  monthly : ℚ
  annual : ℚ
  pvSize : ℚ
  batterySize : ℚ
deriving DecidableEq, Repr

/-- `calculateTotals` (App.js:545-576).  Its first line coerces the raw
`opDaysWeek` form field with `Number(...) || 0`. -/
def calculateTotals (opDaysWeek : Option ℚ) (equipmentList : List ℚ)
    (peakSunHours : ℚ) : CalculationResult :=
  let daysPerWeek := jsNumberOr0 opDaysWeek
  { daily := totalDailyLoad equipmentList
    monthly := totalMonthlyLoad daysPerWeek equipmentList
    annual := totalAnnualLoad daysPerWeek equipmentList
    pvSize := solarPVSize daysPerWeek equipmentList peakSunHours
    batterySize := batteryStorageSize daysPerWeek equipmentList peakSunHours }

/-! ## Basic lemmas -/

theorem totalDailyLoad_eq_sum (l : List ℚ) : totalDailyLoad l = l.sum := by
  have key : ∀ (l : List ℚ) (a : ℚ), l.foldl (· + ·) a = a + l.sum := by
    intro l
    induction l with
    | nil => intro a; simp
    | cons x xs ih =>
        intro a
        simp only [List.foldl_cons, List.sum_cons, ih]
        ring
  simpa using key l 0

theorem jsRound_nonneg {x : ℚ} (h : 0 ≤ x) : 0 ≤ jsRound x := by
  unfold jsRound
  exact Int.floor_nonneg.mpr (by linarith)

theorem jsRound_mono {x y : ℚ} (h : x ≤ y) : jsRound x ≤ jsRound y := by
  unfold jsRound
  exact Int.floor_le_floor (by linarith)

/-- C1: the engine computes `monthly = daily * (daysPerWeek/7) * 30.44` and
`annual = daily * (daysPerWeek/7) * 365.25`, with `daily` the sum of the
items' `totalDailyKWh` (`0` for the empty list); in the scenario
`opDaysWeek = 5`, a single item of `50` kWh gives `daily = 50`,
`monthly = 50 * (5/7) * 30.44` and `annual = 50 * (5/7) * 365.25`. -/
theorem c1_period_projection (v : Option ℚ) (l : List ℚ) (psh : ℚ) :
    (calculateTotals v l psh).daily = l.sum ∧
    (calculateTotals v l psh).monthly = l.sum * (jsNumberOr0 v / 7) * (3044 / 100) ∧
    (calculateTotals v l psh).annual = l.sum * (jsNumberOr0 v / 7) * (36525 / 100) ∧
    (calculateTotals (some 5) [(50 : ℚ)] psh).daily = 50 ∧
    (calculateTotals (some 5) [(50 : ℚ)] psh).monthly = 50 * (5 / 7) * (3044 / 100) ∧
    (calculateTotals (some 5) [(50 : ℚ)] psh).annual = 50 * (5 / 7) * (36525 / 100) := by
  refine ⟨?_, ?_, ?_, ?_, ?_, ?_⟩ <;>
    simp only [calculateTotals, totalMonthlyLoad, totalAnnualLoad, daysPerMonthOf,
      daysPerYearOf, totalDailyLoad_eq_sum, jsNumberOr0, Option.getD_some,
      List.sum_cons, List.sum_nil] <;>
    ring

/-- C3: `batterySize` equals `round((pvSize * 2) / 5) * 5` and is always an
integer multiple of 5. -/
theorem c3_battery_rounding (v : Option ℚ) (l : List ℚ) (psh : ℚ) :
    (calculateTotals v l psh).batterySize =
      (jsRound ((calculateTotals v l psh).pvSize * 2 / 5) : ℚ) * 5 ∧
    ∃ k : ℤ, (calculateTotals v l psh).batterySize = (k : ℚ) * 5 := by
  constructor
  · rfl
  · exact ⟨jsRound (solarPVSize (jsNumberOr0 v) l psh * 2 / 5), rfl⟩

/-- C4: when `peakSunHours` is `0` (or `dailyEnergyNeeded` is `0`) the engine
returns `pvSize = 0` instead of dividing. -/
theorem c4_zero_psh_guard (v : Option ℚ) (l : List ℚ) (psh : ℚ)
    (h : psh = 0 ∨ dailyEnergyNeeded (jsNumberOr0 v) l = 0) :
    (calculateTotals v l psh).pvSize = 0 := by
  show solarPVSize (jsNumberOr0 v) l psh = 0
  unfold solarPVSize
  rcases h with h | h
  · rw [if_neg]
    rintro ⟨-, hpsh⟩
    rw [h] at hpsh
    exact lt_irrefl 0 hpsh
  · rw [if_neg]
    rintro ⟨hden, -⟩
    rw [h] at hden
    exact lt_irrefl 0 hden

/-- Witness for C4, the spec's edge case: `compute(7, [{totalDailyKWh: 100}], 0).pvSize == 0`. -/
theorem c4_zero_psh_guard_witness :
    (calculateTotals (some 7) [(100 : ℚ)] 0).pvSize = 0 :=
  c4_zero_psh_guard (some 7) [(100 : ℚ)] 0 (Or.inl rfl)

/-! ## Nonnegativity and monotonicity of the engine -/

theorem dailyEnergyNeeded_nonneg (d : ℚ) (l : List ℚ) :
    0 ≤ dailyEnergyNeeded d l := by
  unfold dailyEnergyNeeded
  split
  · rename_i h
    positivity
  · exact le_refl 0

theorem solarPVSize_nonneg (d : ℚ) (l : List ℚ) (psh : ℚ) :
    0 ≤ solarPVSize d l psh := by
  unfold solarPVSize
  split
  · rename_i h
    exact div_nonneg (dailyEnergyNeeded_nonneg d l)
      (le_of_lt (mul_pos h.2 (by norm_num [systemEfficiency])))
  · exact le_refl 0

theorem batteryStorageSize_nonneg (d : ℚ) (l : List ℚ) (psh : ℚ) :
    0 ≤ batteryStorageSize d l psh := by
  unfold batteryStorageSize
  have h1 : 0 ≤ jsRound (solarPVSize d l psh * 2 / 5) :=
    jsRound_nonneg (div_nonneg
      (mul_nonneg (solarPVSize_nonneg d l psh) (by norm_num)) (by norm_num))
  have h2 : (0 : ℚ) ≤ (jsRound (solarPVSize d l psh * 2 / 5) : ℚ) := by
    exact_mod_cast h1
  linarith

theorem dailyEnergyNeeded_mono {d : ℚ} {l l' : List ℚ}
    (h : totalAnnualLoad d l ≤ totalAnnualLoad d l') :
    dailyEnergyNeeded d l ≤ dailyEnergyNeeded d l' := by
  unfold dailyEnergyNeeded
  split
  · rename_i h1
    rw [if_pos (lt_of_lt_of_le h1 h)]
    exact div_le_div_of_nonneg_right h (by norm_num)
  · split
    · rename_i h2
      exact div_nonneg (le_of_lt h2) (by norm_num)
    · exact le_refl 0

theorem solarPVSize_mono {d : ℚ} {l l' : List ℚ} (psh : ℚ)
    (h : dailyEnergyNeeded d l ≤ dailyEnergyNeeded d l') :
    solarPVSize d l psh ≤ solarPVSize d l' psh := by
  unfold solarPVSize
  by_cases hpsh : 0 < psh
  · by_cases hden : 0 < dailyEnergyNeeded d l
    · rw [if_pos ⟨hden, hpsh⟩, if_pos ⟨lt_of_lt_of_le hden h, hpsh⟩]
      exact div_le_div_of_nonneg_right h
        (le_of_lt (mul_pos hpsh (by norm_num [systemEfficiency])))
    · rw [if_neg (fun hc => hden hc.1)]
      split
      · rename_i hc
        exact div_nonneg (dailyEnergyNeeded_nonneg d l')
          (le_of_lt (mul_pos hc.2 (by norm_num [systemEfficiency])))
      · exact le_refl 0
  · rw [if_neg (fun hc => hpsh hc.2), if_neg (fun hc => hpsh hc.2)]

theorem batteryStorageSize_mono {d : ℚ} {l l' : List ℚ} (psh : ℚ)
    (h : solarPVSize d l psh ≤ solarPVSize d l' psh) :
    batteryStorageSize d l psh ≤ batteryStorageSize d l' psh := by
  unfold batteryStorageSize
  have h1 : jsRound (solarPVSize d l psh * 2 / 5) ≤
      jsRound (solarPVSize d l' psh * 2 / 5) :=
    jsRound_mono (by linarith)
  have h2 : ((jsRound (solarPVSize d l psh * 2 / 5) : ℤ) : ℚ) ≤
      ((jsRound (solarPVSize d l' psh * 2 / 5) : ℤ) : ℚ) := by
    exact_mod_cast h1
  linarith

/-- C5 counterexample: with an item whose `totalDailyKWh` is `-1`
(producible, e.g., by typing a negative per-unit kWh into the table),
the `daily` output is negative, so the claim that every output field is
non-negative for *every* equipment list is false as stated. -/
theorem c5_counterexample :
    (calculateTotals (some 7) [(-1 : ℚ)] (9 / 2)).daily < 0 := by
  show totalDailyLoad [(-1 : ℚ)] < 0
  rw [totalDailyLoad_eq_sum]
  norm_num

/-- C5 (amended): all five output fields of the engine are non-negative
provided the (coerced) `opDaysWeek` is non-negative and every item's
`totalDailyKWh` is non-negative. -/
theorem c5_nonneg_outputs (v : Option ℚ) (l : List ℚ) (psh : ℚ)
    (hd : 0 ≤ jsNumberOr0 v) (hl : ∀ x ∈ l, 0 ≤ x) :
    0 ≤ (calculateTotals v l psh).daily ∧
    0 ≤ (calculateTotals v l psh).monthly ∧
    0 ≤ (calculateTotals v l psh).annual ∧
    0 ≤ (calculateTotals v l psh).pvSize ∧
    0 ≤ (calculateTotals v l psh).batterySize := by
  have hdaily : 0 ≤ totalDailyLoad l := by
    rw [totalDailyLoad_eq_sum]
    exact List.sum_nonneg hl
  refine ⟨hdaily, ?_, ?_, solarPVSize_nonneg _ l psh, batteryStorageSize_nonneg _ l psh⟩
  · exact mul_nonneg hdaily
      (mul_nonneg (div_nonneg hd (by norm_num)) (by norm_num))
  · exact mul_nonneg hdaily
      (mul_nonneg (div_nonneg hd (by norm_num)) (by norm_num))

/-- Witness for C5 (amended) at `opDaysWeek = 7`, one 50 kWh item,
`peakSunHours = 4.5`. -/
theorem c5_nonneg_outputs_witness :
    0 ≤ (calculateTotals (some 7) [(50 : ℚ)] (9 / 2)).daily ∧
    0 ≤ (calculateTotals (some 7) [(50 : ℚ)] (9 / 2)).monthly ∧
    0 ≤ (calculateTotals (some 7) [(50 : ℚ)] (9 / 2)).annual ∧
    0 ≤ (calculateTotals (some 7) [(50 : ℚ)] (9 / 2)).pvSize ∧
    0 ≤ (calculateTotals (some 7) [(50 : ℚ)] (9 / 2)).batterySize :=
  c5_nonneg_outputs (some 7) [(50 : ℚ)] (9 / 2) (by norm_num [jsNumberOr0])
    (by intro x hx; rw [List.mem_singleton] at hx; rw [hx]; norm_num)

/-- C6 counterexample: an item entered with per-unit kWh `-5` (typable in the
table's per-unit column) and `qty` raised from 1 to 2 — i.e. `totalDailyKWh`
scaled from `-5 * 1` to `-5 * 2` — makes the `daily` output strictly
decrease, so the monotonicity claim is false as stated. -/
theorem c6_counterexample :
    (calculateTotals (some 7) [(-5 : ℚ) * 2] (9 / 2)).daily <
      (calculateTotals (some 7) [(-5 : ℚ) * 1] (9 / 2)).daily := by
  show totalDailyLoad [(-5 : ℚ) * 2] < totalDailyLoad [(-5 : ℚ) * 1]
  rw [totalDailyLoad_eq_sum, totalDailyLoad_eq_sum]
  norm_num

/-- C6 (amended): increasing an item's `qty` from `q` to `q'` with its
per-unit kWh `u` held fixed (its `totalDailyKWh` scaled from `u * q` to
`u * q'`) never decreases any output field, provided the per-unit kWh and the
coerced `opDaysWeek` are non-negative. -/
theorem c6_qty_monotone (v : Option ℚ) (l1 l2 : List ℚ) (u q q' psh : ℚ)
    (hd : 0 ≤ jsNumberOr0 v) (hu : 0 ≤ u) (hq : q ≤ q') :
    (calculateTotals v (l1 ++ u * q :: l2) psh).daily ≤
      (calculateTotals v (l1 ++ u * q' :: l2) psh).daily ∧
    (calculateTotals v (l1 ++ u * q :: l2) psh).monthly ≤
      (calculateTotals v (l1 ++ u * q' :: l2) psh).monthly ∧
    (calculateTotals v (l1 ++ u * q :: l2) psh).annual ≤
      (calculateTotals v (l1 ++ u * q' :: l2) psh).annual ∧
    (calculateTotals v (l1 ++ u * q :: l2) psh).pvSize ≤
      (calculateTotals v (l1 ++ u * q' :: l2) psh).pvSize ∧
    (calculateTotals v (l1 ++ u * q :: l2) psh).batterySize ≤
      (calculateTotals v (l1 ++ u * q' :: l2) psh).batterySize := by
  have hitem : u * q ≤ u * q' := mul_le_mul_of_nonneg_left hq hu
  have hsum : totalDailyLoad (l1 ++ u * q :: l2) ≤ totalDailyLoad (l1 ++ u * q' :: l2) := by
    rw [totalDailyLoad_eq_sum, totalDailyLoad_eq_sum, List.sum_append,
      List.sum_append, List.sum_cons, List.sum_cons]
    linarith
  have hdpm : 0 ≤ daysPerMonthOf (jsNumberOr0 v) := by
    unfold daysPerMonthOf
    exact mul_nonneg (div_nonneg hd (by norm_num)) (by norm_num)
  have hdpy : 0 ≤ daysPerYearOf (jsNumberOr0 v) := by
    unfold daysPerYearOf
    exact mul_nonneg (div_nonneg hd (by norm_num)) (by norm_num)
  have hann : totalAnnualLoad (jsNumberOr0 v) (l1 ++ u * q :: l2) ≤
      totalAnnualLoad (jsNumberOr0 v) (l1 ++ u * q' :: l2) := by
    unfold totalAnnualLoad
    exact mul_le_mul_of_nonneg_right hsum hdpy
  have hden := dailyEnergyNeeded_mono hann
  have hpv := solarPVSize_mono psh hden
  refine ⟨hsum, ?_, hann, hpv, batteryStorageSize_mono psh hpv⟩
  show totalMonthlyLoad (jsNumberOr0 v) (l1 ++ u * q :: l2) ≤
    totalMonthlyLoad (jsNumberOr0 v) (l1 ++ u * q' :: l2)
  unfold totalMonthlyLoad
  exact mul_le_mul_of_nonneg_right hsum hdpm

/-- Witness for C6 (amended): per-unit kWh `5`, `qty` raised from 1 to 2,
with `opDaysWeek = 7` and `peakSunHours = 4.5`. -/
theorem c6_qty_monotone_witness :
    (calculateTotals (some 7) ([] ++ (5 : ℚ) * 1 :: []) (9 / 2)).daily ≤
      (calculateTotals (some 7) ([] ++ (5 : ℚ) * 2 :: []) (9 / 2)).daily ∧
    (calculateTotals (some 7) ([] ++ (5 : ℚ) * 1 :: []) (9 / 2)).monthly ≤
      (calculateTotals (some 7) ([] ++ (5 : ℚ) * 2 :: []) (9 / 2)).monthly ∧
    (calculateTotals (some 7) ([] ++ (5 : ℚ) * 1 :: []) (9 / 2)).annual ≤
      (calculateTotals (some 7) ([] ++ (5 : ℚ) * 2 :: []) (9 / 2)).annual ∧
    (calculateTotals (some 7) ([] ++ (5 : ℚ) * 1 :: []) (9 / 2)).pvSize ≤
      (calculateTotals (some 7) ([] ++ (5 : ℚ) * 2 :: []) (9 / 2)).pvSize ∧
    (calculateTotals (some 7) ([] ++ (5 : ℚ) * 1 :: []) (9 / 2)).batterySize ≤
      (calculateTotals (some 7) ([] ++ (5 : ℚ) * 2 :: []) (9 / 2)).batterySize :=
  c6_qty_monotone (some 7) [] [] 5 1 2 (9 / 2) (by norm_num [jsNumberOr0])
    (by norm_num) (by norm_num)

/-! ## The opDaysWeek input handler (`handleFacilityInfoChange`, App.js:472-487) -/

/-- The `opDaysWeek` branch of `handleFacilityInfoChange` (App.js:475-484):
an empty or non-numeric field (`parseInt` → `NaN`, so `numValue > 7` is
false) is stored unchanged; a numeric value above 7 is replaced by 7. -/
def clampOpDaysWeekField (v : Option ℤ) : Option ℤ :=
  match v with
  | none => none
  | some n => if 7 < n then some 7 else some n

/-- C7 counterexample: the engine itself does not clamp `opDaysWeek` — called
directly with `opDaysWeek = 10` it does not give the same result as with 7
(the `monthly` output is `50 * (10/7) * 30.44` versus `50 * 30.44`). -/
theorem c7_counterexample :
    (calculateTotals (some 10) [(50 : ℚ)] (9 / 2)).monthly ≠
      (calculateTotals (some 7) [(50 : ℚ)] (9 / 2)).monthly := by
  show totalMonthlyLoad (jsNumberOr0 (some 10)) [(50 : ℚ)] ≠
    totalMonthlyLoad (jsNumberOr0 (some 7)) [(50 : ℚ)]
  rw [totalMonthlyLoad, totalMonthlyLoad, totalDailyLoad_eq_sum]
  norm_num [daysPerMonthOf, jsNumberOr0]

/-- C7 (amended): the clamp lives in the facility-info input handler, not in
the engine: the handler stores 7 for an entered 10, so the result computed
from the handler-processed field with input 10 is identical to the one with
input 7, for every equipment list and every `peakSunHours`. -/
theorem c7_clamped_input_equal (l : List ℚ) (psh : ℚ) :
    calculateTotals ((clampOpDaysWeekField (some 10)).map (fun n => (n : ℚ))) l psh =
      calculateTotals ((clampOpDaysWeekField (some 7)).map (fun n => (n : ℚ))) l psh :=
  rfl

/-! ## Step 1 of the engine: the `opDaysWeek` coercion (App.js:546) -/

/-- C8 counterexample: step 1 of the engine is `Number(opDaysWeek) || 0`, not
`max(0, opDaysWeek)` — `opDaysWeek = -3` is used as `-3`, not `0`, and the
negative value flows into the later steps (`monthly` goes negative). -/
theorem c8_counterexample :
    jsNumberOr0 (some (-3)) ≠ max 0 (-3) ∧
    (calculateTotals (some (-3)) [(7 : ℚ)] (9 / 2)).monthly < 0 := by
  constructor
  · norm_num [jsNumberOr0]
  · show totalMonthlyLoad (jsNumberOr0 (some (-3))) [(7 : ℚ)] < 0
    rw [totalMonthlyLoad, totalDailyLoad_eq_sum]
    norm_num [daysPerMonthOf, jsNumberOr0]

/-- C8 (amended): step 1 coerces the raw field with `Number(...) || 0`:
missing/invalid input is treated as 0, and any numeric value — including a
negative one — is passed through unclamped to all subsequent steps. -/
theorem c8_coercion_no_clamp :
    jsNumberOr0 none = 0 ∧
    (∀ q : ℚ, jsNumberOr0 (some q) = q) ∧
    (∀ (l : List ℚ) (psh : ℚ), calculateTotals none l psh = calculateTotals (some 0) l psh) ∧
    (calculateTotals (some (-3)) [(7 : ℚ)] (9 / 2)).monthly =
      7 * ((-3 : ℚ) / 7 * (3044 / 100)) := by
  refine ⟨rfl, fun q => rfl, fun l psh => rfl, ?_⟩
  show totalMonthlyLoad (jsNumberOr0 (some (-3))) [(7 : ℚ)] = 7 * ((-3 : ℚ) / 7 * (3044 / 100))
  rw [totalMonthlyLoad, totalDailyLoad_eq_sum]
  norm_num [daysPerMonthOf, jsNumberOr0]

/-! ## Equipment table edits (`handleEdit`, App.js:242-274) -/

/-- An equipment line item as stored in the table (the fields `handleEdit`
reads and writes; `name` is untouched by edits and omitted). -/
structure EquipItem where
  id : ℕ
  qty : ℚ
  power : ℚ
  hours : ℚ
  totalDailyKWh : ℚ
deriving DecidableEq, Repr

/-- The editable columns of the equipment table. -/
inductive EditField where
  | qty
  | power
  | hours
  | dailyKWhPerUnit
deriving DecidableEq, Repr

/-- `let numValue = parseFloat(value) || 0; if (field === "hours" && numValue > 24) numValue = 24`
(App.js:243-247).  The raw cell text is modelled post-`parseFloat` as
`Option ℚ` (`none` = `NaN`). -/
def handleEditValue (field : EditField) (value : Option ℚ) : ℚ :=
  let numValue := value.getD 0
  if field = EditField.hours ∧ 24 < numValue then 24 else numValue

/-- The per-item update of `handleEdit`'s `map` callback (App.js:250-269). -/
def applyEdit (field : EditField) (numValue : ℚ) (item : EquipItem) : EquipItem :=
  match field with
  | EditField.qty =>
      let perUnitKwh := if 0 < item.qty then item.totalDailyKWh / item.qty else 0
      { item with qty := numValue, totalDailyKWh := perUnitKwh * numValue }
  | EditField.power =>
      { item with
          power := numValue
          totalDailyKWh := item.qty * numValue * item.hours / 1000 }
  | EditField.hours =>
      { item with
          hours := numValue
          totalDailyKWh := item.qty * item.power * numValue / 1000 }
  | EditField.dailyKWhPerUnit =>
      { item with power := 0, hours := 0, totalDailyKWh := numValue * item.qty }

/-- `handleEdit` (App.js:242-274): recompute the matching row, keep the rest. -/
def handleEdit (equipmentList : List EquipItem) (id : ℕ) (field : EditField)
    (value : Option ℚ) : List EquipItem :=
  equipmentList.map fun item =>
    if item.id = id then applyEdit field (handleEditValue field value) item else item

/-- C9: editing an item's `qty` (when the old `qty` is positive) rescales the
stored total proportionally: the new `totalDailyKWh` is
`(old totalDailyKWh / old qty) * q'`, preserving the per-unit kWh. -/
theorem c9_qty_edit_rescales (item : EquipItem) (q' : ℚ) (h : 0 < item.qty) :
    handleEdit [item] item.id EditField.qty (some q') =
      [{ item with qty := q', totalDailyKWh := item.totalDailyKWh / item.qty * q' }] := by
  simp only [handleEdit, List.map_cons, List.map_nil, if_pos rfl]
  show [{ item with
      qty := q'
      totalDailyKWh := (if 0 < item.qty then item.totalDailyKWh / item.qty else 0) * q' }] =
    [{ item with qty := q', totalDailyKWh := item.totalDailyKWh / item.qty * q' }]
  rw [if_pos h]

/-- Witness for C9, the spec's scenario: `qty` edited from 2 to 4 on an item
with `totalDailyKWh = 10` yields `totalDailyKWh = 20` (per-unit kWh 5). -/
theorem c9_qty_edit_rescales_witness :
    handleEdit [⟨0, 2, 0, 0, 10⟩] 0 EditField.qty (some 4) =
      [⟨0, 4, 0, 0, (10 : ℚ) / 2 * 4⟩] ∧ (10 : ℚ) / 2 * 4 = 20 :=
  ⟨c9_qty_edit_rescales ⟨0, 2, 0, 0, 10⟩ 4 (by norm_num), by norm_num⟩

/-! ## The irradiance lookup (`fetchSolarData`, App.js:501-533) -/

/-- `s.startsWith(p)` on strings modelled as `List Char`. -/
def strStartsWith : List Char → List Char → Bool
  | [], _ => true
  | _ :: _, [] => false
  | c :: p, d :: s => c = d && strStartsWith p s

/-- The peak-sun-hours value chosen by `fetchSolarData` (App.js:501-533):
a zip shorter than 5 characters keeps the default 4.5; otherwise the
`if`/`else if` chain of the source picks the value (`let psh = 4.5` is the
fall-through default). -/
def fetchSolarPsh (zip : List Char) : ℚ :=
  if zip.length < 5 then 45 / 10
  else if strStartsWith ['8', '5'] zip || strStartsWith ['8', '6'] zip then 65 / 10
  else if strStartsWith ['9'] zip then 55 / 10
  else if strStartsWith ['9', '8'] zip || strStartsWith ['9', '9'] zip then 38 / 10
  else if strStartsWith ['3'] zip then 5
  else 45 / 10

theorem strStartsWith_cons_of_two {c c' : Char} {zip : List Char}
    (h : strStartsWith [c, c'] zip = true) : strStartsWith [c] zip = true := by
  match zip with
  | [] => exact absurd h (by simp [strStartsWith])
  | d :: s =>
      simp only [strStartsWith, Bool.and_eq_true] at h ⊢
      exact ⟨h.1, trivial⟩

/-- C10 counterexample: the lookup requires at least 5 characters before the
branch chain runs, so the string "9" (first character '9') yields the
default 4.5, not 5.5 — the claim over *every* string starting with "9" is
false as stated. -/
theorem c10_counterexample :
    fetchSolarPsh ['9'] = 45 / 10 ∧ fetchSolarPsh ['9'] ≠ 55 / 10 := by
  constructor
  · rfl
  · intro h
    rw [show fetchSolarPsh ['9'] = 45 / 10 from rfl] at h
    norm_num at h

/-- C10 (amended): for every zip of length at least 5 whose first character
is '9' (so in particular those starting with "98" or "99") the lookup yields
5.5, the West Coast value; and the Pacific Northwest branch (3.8) is
unreachable — the lookup never returns 3.8 for any string. -/
theorem c10_west_coast_shadows_pnw :
    (∀ zip : List Char, 5 ≤ zip.length → strStartsWith ['9'] zip = true →
      fetchSolarPsh zip = 55 / 10) ∧
    (∀ zip : List Char, fetchSolarPsh zip ≠ 38 / 10) := by
  constructor
  · intro zip hlen h9
    unfold fetchSolarPsh
    rw [if_neg (by omega)]
    rw [if_neg, if_pos h9]
    intro hc
    rcases Bool.or_eq_true_iff.mp hc with h85 | h86
    · have h8 := strStartsWith_cons_of_two h85
      match zip, h9, h8 with
      | d :: s, h9, h8 =>
          simp only [strStartsWith, Bool.and_eq_true] at h9 h8
          have e9 : ('9' : Char) = d := by
            have := h9.1
            exact decide_eq_true_eq.mp (by exact this)
          have e8 : ('8' : Char) = d := by
            have := h8.1
            exact decide_eq_true_eq.mp (by exact this)
          rw [← e9] at e8
          exact absurd e8 (by decide)
    · have h8 := strStartsWith_cons_of_two h86
      match zip, h9, h8 with
      | d :: s, h9, h8 =>
          simp only [strStartsWith, Bool.and_eq_true] at h9 h8
          have e9 : ('9' : Char) = d := by
            have := h9.1
            exact decide_eq_true_eq.mp (by exact this)
          have e8 : ('8' : Char) = d := by
            have := h8.1
            exact decide_eq_true_eq.mp (by exact this)
          rw [← e9] at e8
          exact absurd e8 (by decide)
  · intro zip
    unfold fetchSolarPsh
    split
    · norm_num
    · split
      · norm_num
      · split
        · norm_num
        · split
          · rename_i h9 h989
            exfalso
            rcases Bool.or_eq_true_iff.mp h989 with h98 | h99
            · exact h9 (strStartsWith_cons_of_two h98)
            · exact h9 (strStartsWith_cons_of_two h99)
          · split
            · norm_num
            · norm_num

/-- Witness for C10 (amended) at the zip "94043". -/
theorem c10_west_coast_shadows_pnw_witness :
    fetchSolarPsh ['9', '4', '0', '4', '3'] = 55 / 10 :=
  c10_west_coast_shadows_pnw.1 ['9', '4', '0', '4', '3'] (by norm_num) (by decide)

/-! ## The add-equipment form (`handleSubmit`, App.js:109-148) -/

/-- The item pushed onto the list by `onAddEquipment` (App.js:137-144).
`power` and `hours` are stored through `|| 0` and are plain rationals;
`qty` is stored raw (`numQty`, possibly `NaN`) and `totalDailyKWh` is the
uncoerced product, so both remain possibly-`NaN` values. -/
structure SubmittedItem where
  qty : Option ℚ
  power : ℚ
  hours : ℚ
  totalDailyKWh : Option ℚ
deriving DecidableEq, Repr

/-- `handleSubmit` (App.js:109-148) after the four parses
(`parseInt(qty)`, `parseFloat(kwh)`, `parseInt(power)`, `parseFloat(hours)`,
each `none` when the field is blank or non-numeric).  Returns `none` when
validation rejects the submission (empty name, or neither a positive `kwh`
nor a positive `power` and `hours` pair). -/
def handleSubmit (name : List Char) (numQty numKwh numPower numHours : Option ℚ) :
    Option SubmittedItem :=
  if name = [] then none
  else if jsGtZero numKwh then
    some { qty := numQty
           power := jsNumberOr0 numPower
           hours := jsNumberOr0 numHours
           totalDailyKWh := jsMul numKwh numQty }
  else if jsGtZero numPower && jsGtZero numHours then
    some { qty := numQty
           power := jsNumberOr0 numPower
           hours := jsNumberOr0 numHours
           totalDailyKWh := jsDiv (jsMul (jsMul numQty numPower) numHours) (some 1000) }
  else none

/-- C2: submitting the form with a valid per-unit kWh of 5 but a blank `qty`
(`parseInt("")` is `NaN`) stores an item whose `totalDailyKWh` is
`5 * NaN = NaN` (`none`): the blank `qty` is *not* coerced to 0 before the
multiplication, so a non-finite `totalDailyKWh` is stored, contradicting the
claimed safe-coercion policy. -/
theorem c2_nan_qty_bug :
    handleSubmit ['A'] none (some 5) none none =
      some { qty := none, power := 0, hours := 0, totalDailyKWh := none } ∧
    ∀ item : SubmittedItem,
      handleSubmit ['A'] none (some 5) none none = some item →
        item.totalDailyKWh ≠ some 0 := by
  constructor
  · rfl
  · intro item h hz
    rw [show handleSubmit ['A'] none (some 5) none none =
        some { qty := none, power := 0, hours := 0, totalDailyKWh := none }
      from rfl] at h
    cases Option.some.inj h
    exact Option.noConfusion hz
